import Mathlib

/-
Verification of the shop-directory API in `src/app.js` (an Express + Mongoose
CRUD service).  The externally visible behavior of each route handler is
embedded as a pure Lean function over an explicit server state: the MongoDB
collection of shop documents (a list) and the set of files existing under the
`public/` directory (a list of public reference paths).  External
collaborators are modeled as inputs: the Nominatim reverse-geocoding oracle as
a `GeoResult`, the uuid generator as the supplied fresh id string, the wall
clock as a `DateTimeV`, and the staged multer upload as an optional filename.
Each handler returns its HTTP-level outcome, the successor state, and the
ordered list of side effects it performed.
-/

set_option autoImplicit false

namespace FlutterFlowApi

/-- Location subdocument of a shop record: latitude and longitude as numeric
strings plus the reverse-geocoded place name (fields of `shopSchema.location`
in `src/app.js`). -/
structure Location where
  latitude : String
  longitude : String
  placeName : String
deriving DecidableEq, Repr

/-- Shop document as declared by `shopSchema` in `src/app.js`: the external
`id` token, five required text fields, the photo reference (empty string when
no photo is attached), the textual timestamp, and the location subdocument. -/
structure Shop where
  id : String
  ownerName : String
  contactNumber : String
  shopNumber : String
  address : String
  description : String
  photo : String
  timestamp : String
  location : Location
deriving DecidableEq, Repr

/-- Behavior of the external Nominatim reverse-geocoding oracle as observed by
`getPlaceName`: the request may throw (network error, timeout, malformed
transport), or deliver a JSON body whose `display_name` field is absent
(`none`) or present as a string. -/
inductive GeoResult where
  | failure
  | response (displayName : Option String)
deriving DecidableEq, Repr

/-- Embedding of `getPlaceName` (src/app.js lines 49-67): a thrown error is
caught and the sentinel is returned; on a response,
`res.data.display_name || 'Unknown location'` yields the sentinel exactly when
`display_name` is absent or is the empty string (the only falsy string). The
function is total: no error ever reaches the caller. -/
def getPlaceName (latitude longitude : String) (oracle : GeoResult) : String :=
  match latitude, longitude, oracle with
  | _, _, GeoResult.failure => "Unknown location"
  | _, _, GeoResult.response none => "Unknown location"
  | _, _, GeoResult.response (some s) => if s = "" then "Unknown location" else s

/-- Observable side effects of a request handler, recorded in program order:
the outbound geocoding call, a file deletion (`fs.unlinkSync`), a document
write (`shop.save()`), and a document removal (`Shop.deleteOne`). -/
inductive Effect where
  | geocode (latitude longitude : String)
  | fsUnlink (ref : String)
  | dbSave (s : Shop)
  | dbDelete (id : String)
deriving DecidableEq, Repr

/-- Server-side state touched by the handlers: the MongoDB collection of shop
documents and the set of files existing under `public/`, each named by its
public reference path (such as `/uploads/1699999999.jpg`). -/
structure AppState where
  repo : List Shop
  fsFiles : List String
deriving DecidableEq, Repr

/-- Error outcomes a handler can produce: the distinct 404 not-found response
and the generic 500 failure response.  These are the only error responses in
`src/app.js`; no 4xx client-error response exists. -/
inductive ApiError where
  | notFound
  | serverError
deriving DecidableEq, Repr

/-- Embedding of `Shop.findOne({ id: ... })`: the first document whose `id`
field matches the requested external id. -/
def findOne (repo : List Shop) (i : String) : Option Shop :=
  repo.find? (fun s => s.id == i)

/-- Validation performed by Mongoose when `shop.save()` runs: every schema
path marked `required: true` must be present and, for strings, non-empty
(an absent form field destructures to `undefined`, which fails the same
check; both are modeled by the empty string).  `photo` and
`location.placeName` carry defaults and are not required. -/
def validShop (s : Shop) : Prop :=
  s.id ≠ "" ∧ s.ownerName ≠ "" ∧ s.contactNumber ≠ "" ∧ s.shopNumber ≠ "" ∧
    s.address ≠ "" ∧ s.description ≠ "" ∧ s.timestamp ≠ "" ∧
    s.location.latitude ≠ "" ∧ s.location.longitude ≠ ""

instance decValidShop (s : Shop) : Decidable (validShop s) := by
  unfold validShop; infer_instance

/-- Text fields destructured from `req.body` by the create and update
handlers. -/
structure ShopRequest where
  ownerName : String
  contactNumber : String
  shopNumber : String
  address : String
  description : String
  latitude : String
  longitude : String
deriving DecidableEq, Repr

/-- Predicate on a request body: at least one of the five required text fields
is absent or empty (an absent field destructures to `undefined`; both absence
and emptiness are modeled by the empty string, which Mongoose likewise rejects
for a required path). -/
def missingRequired (req : ShopRequest) : Prop :=
  req.ownerName = "" ∨ req.contactNumber = "" ∨ req.shopNumber = "" ∨
    req.address = "" ∨ req.description = ""

instance decMissingRequired (req : ShopRequest) : Decidable (missingRequired req) := by
  unfold missingRequired; infer_instance

/-- Wall-clock instant captured by `dateTime.create()`, split into calendar
fields. -/
structure DateTimeV where
  year : Nat
  month : Nat
  day : Nat
  hour : Nat
  minute : Nat
  second : Nat
deriving DecidableEq, Repr

/-- Two-digit zero padding applied by node-datetime to the `m d H M S` format
specifiers. -/
def pad2 (n : Nat) : String :=
  if n < 10 then "0" ++ Nat.repr n else Nat.repr n

/-- Embedding of `dt.format('Y-m-d H:M:S')` from node-datetime: the full year,
then the zero-padded month, day, hour, minute and second, joined with the
literal separators of the format string. -/
def formatTimestamp (t : DateTimeV) : String :=
  Nat.repr t.year ++ "-" ++ pad2 t.month ++ "-" ++ pad2 t.day ++ " " ++
    pad2 t.hour ++ ":" ++ pad2 t.minute ++ ":" ++ pad2 t.second

/-- Check that every character of a string is a decimal digit. -/
def isDigits (s : String) : Bool :=
  s.toList.all Char.isDigit

/-- Shape `YYYY-MM-DD HH:MM:SS`: a four-digit group, two dashes, three
two-digit groups separated by a space and two colons. -/
def timestampShape (s : String) : Prop :=
  ∃ y mo d h mi sec : String,
    s = y ++ "-" ++ mo ++ "-" ++ d ++ " " ++ h ++ ":" ++ mi ++ ":" ++ sec ∧
      y.length = 4 ∧ mo.length = 2 ∧ d.length = 2 ∧ h.length = 2 ∧
      mi.length = 2 ∧ sec.length = 2 ∧
      isDigits y = true ∧ isDigits mo = true ∧ isDigits d = true ∧
      isDigits h = true ∧ isDigits mi = true ∧ isDigits sec = true

/-- Calendar ranges of an instant delivered by the system clock: a four-digit
year and in-range month, day, hour, minute and second fields. -/
def validTime (t : DateTimeV) : Prop :=
  1000 ≤ t.year ∧ t.year ≤ 9999 ∧ 1 ≤ t.month ∧ t.month ≤ 12 ∧
    1 ≤ t.day ∧ t.day ≤ 31 ∧ t.hour ≤ 23 ∧ t.minute ≤ 59 ∧ t.second ≤ 59

/-- Embedding of the guarded deletion used by the update and delete handlers,
`if (shop.photo && fs.existsSync(p)) fs.unlinkSync(p)`: the file is deleted
only when the reference is non-empty and the file exists, so an empty
reference or a missing file is silently skipped and `unlinkSync` can never
throw for absence.  Returns the new file set together with the emitted unlink
effects. -/
def removeAsset (fsFiles : List String) (ref : String) : List String × List Effect :=
  if ref ≠ "" ∧ ref ∈ fsFiles then
    (fsFiles.filter (fun f => f != ref), [Effect.fsUnlink ref])
  else
    (fsFiles, [])

/-- Effect of `shop.save()` on a document previously obtained by `findOne`:
the stored document with that external id now carries the new field values. -/
def replaceById (repo : List Shop) (i : String) (s : Shop) : List Shop :=
  repo.map (fun old => if old.id = i then s else old)

/-- Embedding of `Shop.deleteOne({ id: ... })`: removes the first document
whose `id` matches. -/
def deleteById : List Shop → String → List Shop
  | [], _ => []
  | s :: rest, i => if s.id = i then rest else s :: deleteById rest i

/-- Public reference assigned for a staged upload, the expression
`req.file ? '/uploads/' + req.file.filename : ''`: the `/uploads/` path of the
file multer stored, or the empty string when no file was sent. -/
def photoRefOf (file : Option String) : String :=
  match file with
  | some f => "/uploads/" ++ f
  | none => ""

/-- Document built by the `new Shop({...})` call of the create handler
(src/app.js lines 101-111): a freshly generated id, the request's text
fields, the staged file's public path (empty when no file was uploaded), the
formatted current time, and the location enriched with the resolved place
name. -/
def newShopDoc (req : ShopRequest) (file : Option String) (oracle : GeoResult)
    (newId : String) (now : DateTimeV) : Shop :=
  { id := newId
    ownerName := req.ownerName
    contactNumber := req.contactNumber
    shopNumber := req.shopNumber
    address := req.address
    description := req.description
    photo := photoRefOf file
    timestamp := formatTimestamp now
    location :=
      { latitude := req.latitude, longitude := req.longitude
        placeName := getPlaceName req.latitude req.longitude oracle } }

/-- Embedding of `POST /api/shops` (src/app.js lines 95-118).  The handler
resolves the place name, builds the document via `newShopDoc`, and calls
`shop.save()`.  Mongoose rejects the save when a required path is missing or
when the unique `id` index is violated; the catch branch then answers with
the generic 500.  The staged upload, already written to disk by multer before
the handler runs, is never removed by this route. -/
def createShop (st : AppState) (req : ShopRequest) (file : Option String)
    (oracle : GeoResult) (newId : String) (now : DateTimeV) :
    Except ApiError Shop × AppState × List Effect :=
  let shop := newShopDoc req file oracle newId now
  if validShop shop ∧ findOne st.repo newId = none then
    (Except.ok shop, { st with repo := st.repo ++ [shop] },
      [Effect.geocode req.latitude req.longitude, Effect.dbSave shop])
  else
    (Except.error ApiError.serverError, st,
      [Effect.geocode req.latitude req.longitude])

/-- Field assignments of the update handler (src/app.js lines 129-135): every
mutable text field, the location (with the freshly resolved place name) and
the timestamp of the found document are overwritten; `id` and `photo` are not
touched here. -/
def updatedDoc (shop : Shop) (req : ShopRequest) (oracle : GeoResult)
    (now : DateTimeV) : Shop :=
  { shop with
    ownerName := req.ownerName
    contactNumber := req.contactNumber
    shopNumber := req.shopNumber
    address := req.address
    description := req.description
    location :=
      { latitude := req.latitude, longitude := req.longitude
        placeName := getPlaceName req.latitude req.longitude oracle }
    timestamp := formatTimestamp now }

/-- Embedding of `PUT /api/shops/:id` (src/app.js lines 121-149).  A missing
id short-circuits with 404 before any effect.  Otherwise the handler
re-resolves the place name and overwrites the mutable fields; when a new file
is staged it deletes the old photo file (when set and existing) and only then
assigns the new public path; `shop.save()` finally persists the document,
failing when a required path became empty — in that case the catch branch
answers 500 although the unlink already happened. -/
def updateShop (st : AppState) (i : String) (req : ShopRequest)
    (file : Option String) (oracle : GeoResult) (now : DateTimeV) :
    Except ApiError Shop × AppState × List Effect :=
  match findOne st.repo i with
  | none => (Except.error ApiError.notFound, st, [])
  | some shop =>
    let base := updatedDoc shop req oracle now
    match file with
    | none =>
      if validShop base then
        (Except.ok base, { st with repo := replaceById st.repo i base },
          [Effect.geocode req.latitude req.longitude, Effect.dbSave base])
      else
        (Except.error ApiError.serverError, st,
          [Effect.geocode req.latitude req.longitude])
    | some f =>
      let cleaned := removeAsset st.fsFiles shop.photo
      let updated : Shop := { base with photo := "/uploads/" ++ f }
      if validShop updated then
        (Except.ok updated,
          { repo := replaceById st.repo i updated, fsFiles := cleaned.1 },
          Effect.geocode req.latitude req.longitude :: cleaned.2 ++
            [Effect.dbSave updated])
      else
        (Except.error ApiError.serverError, { st with fsFiles := cleaned.1 },
          Effect.geocode req.latitude req.longitude :: cleaned.2)

/-- Embedding of `GET /api/shops/:id` (src/app.js lines 84-92): look the shop
up by its external id; absence is the distinct 404 outcome.  No effect is
emitted and the state is returned unchanged. -/
def getShop (st : AppState) (i : String) :
    Except ApiError Shop × AppState × List Effect :=
  match findOne st.repo i with
  | none => (Except.error ApiError.notFound, st, [])
  | some s => (Except.ok s, st, [])

/-- Embedding of `DELETE /api/shops/:id` (src/app.js lines 152-166): 404 when
the id is unknown; otherwise delete the photo file (when set and existing),
then remove the document and answer with the confirmation message. -/
def deleteShop (st : AppState) (i : String) :
    Except ApiError String × AppState × List Effect :=
  match findOne st.repo i with
  | none => (Except.error ApiError.notFound, st, [])
  | some shop =>
    let cleaned := removeAsset st.fsFiles shop.photo
    (Except.ok "Shop deleted",
      { repo := deleteById st.repo i, fsFiles := cleaned.1 },
      cleaned.2 ++ [Effect.dbDelete i])

/-- Scan of an effect trace, left to right, checking that every file deletion
happens only after some document write has already been persisted (the
ordering the specification prescribes for photo replacement); the flag records
whether a save has been seen so far. -/
def unlinksAfterSave : List Effect → Bool → Bool
  | [], _ => true
  | Effect.dbSave _ :: rest, _ => unlinksAfterSave rest true
  | Effect.fsUnlink _ :: rest, seenSave => seenSave && unlinksAfterSave rest seenSave
  | _ :: rest, seenSave => unlinksAfterSave rest seenSave

/-! Helper lemmas about the decimal rendering used by `formatTimestamp`. -/

lemma toDigitsCore_step (fuel m : Nat) (ds : List Char) (hfuel : 0 < fuel) :
    Nat.toDigitsCore 10 fuel m ds =
      if m / 10 = 0 then Nat.digitChar (m % 10) :: ds
      else Nat.toDigitsCore 10 (fuel - 1) (m / 10) (Nat.digitChar (m % 10) :: ds) := by
  cases fuel with
  | zero => exact absurd hfuel (by simp)
  | succ f => simp [Nat.toDigitsCore]

lemma digitChar_isDigit : ∀ m, m < 10 → (Nat.digitChar m).isDigit = true := by decide

lemma repr_four (n : Nat) (h1 : 1000 ≤ n) (h2 : n ≤ 9999) :
    Nat.repr n = List.asString [Nat.digitChar (n / 1000), Nat.digitChar (n / 100 % 10),
      Nat.digitChar (n / 10 % 10), Nat.digitChar (n % 10)] := by
  have hd1 : n / 10 / 10 = n / 100 := by omega
  have hd2 : n / 100 / 10 = n / 1000 := by omega
  have hd3 : n / 1000 / 10 = 0 := by omega
  have h10 : ¬ (n / 10 = 0) := by omega
  have h100 : ¬ (n / 100 = 0) := by omega
  have h1000 : ¬ (n / 1000 = 0) := by omega
  have hmod : n / 1000 % 10 = n / 1000 := by omega
  unfold Nat.repr Nat.toDigits
  rw [toDigitsCore_step _ _ _ (by omega)]
  rw [if_neg h10]
  rw [toDigitsCore_step _ _ _ (by omega)]
  rw [hd1, if_neg h100]
  rw [toDigitsCore_step _ _ _ (by omega)]
  rw [hd2, if_neg h1000]
  rw [toDigitsCore_step _ _ _ (by omega)]
  rw [hd3, if_pos rfl, hmod]

lemma repr_four_shape (n : Nat) (h1 : 1000 ≤ n) (h2 : n ≤ 9999) :
    (Nat.repr n).length = 4 ∧ isDigits (Nat.repr n) = true := by
  rw [repr_four n h1 h2]
  refine ⟨rfl, ?_⟩
  have c1 := digitChar_isDigit (n / 1000) (by omega)
  have c2 := digitChar_isDigit (n / 100 % 10) (by omega)
  have c3 := digitChar_isDigit (n / 10 % 10) (by omega)
  have c4 := digitChar_isDigit (n % 10) (by omega)
  simp [isDigits, List.asString, String.toList, c1, c2, c3, c4]

lemma pad2_shape : ∀ n, n < 100 → (pad2 n).length = 2 ∧ isDigits (pad2 n) = true := by
  decide

lemma formatTimestamp_shape (t : DateTimeV) (h : validTime t) :
    timestampShape (formatTimestamp t) := by
  obtain ⟨hy1, hy2, hm1, hm2, hd1, hd2, hh, hmi, hs⟩ := h
  obtain ⟨ly, dy⟩ := repr_four_shape t.year hy1 hy2
  obtain ⟨lm, dm⟩ := pad2_shape t.month (by omega)
  obtain ⟨ld, dd⟩ := pad2_shape t.day (by omega)
  obtain ⟨lh, dh⟩ := pad2_shape t.hour (by omega)
  obtain ⟨lmi, dmi⟩ := pad2_shape t.minute (by omega)
  obtain ⟨ls, ds⟩ := pad2_shape t.second (by omega)
  exact ⟨Nat.repr t.year, pad2 t.month, pad2 t.day, pad2 t.hour, pad2 t.minute,
    pad2 t.second, rfl, ly, lm, ld, lh, lmi, ls, dy, dm, dd, dh, dmi, ds⟩

/-! Helper lemmas about the repository list operations. -/

lemma findOne_some_id {repo : List Shop} {i : String} {s : Shop}
    (h : findOne repo i = some s) : s.id = i := by
  have := List.find?_some h
  simpa using this

lemma findOne_none_forall {repo : List Shop} {i : String}
    (h : findOne repo i = none) : ∀ s ∈ repo, s.id ≠ i := by
  intro s hs
  have := List.find?_eq_none.mp h s hs
  simpa using this

lemma findOne_append_of_none {repo l2 : List Shop} {i : String}
    (h : findOne repo i = none) : findOne (repo ++ l2) i = findOne l2 i := by
  unfold findOne at h ⊢
  induction repo with
  | nil => simp
  | cons s rest ih =>
    rw [List.find?] at h
    cases hb : (s.id == i) with
    | true => rw [hb] at h; exact absurd h (by simp)
    | false =>
      rw [hb] at h
      rw [List.cons_append, List.find?, hb]
      exact ih h

lemma findOne_replaceById {repo : List Shop} {i : String} {s u : Shop}
    (hf : findOne repo i = some s) (hu : u.id = i) :
    findOne (replaceById repo i u) i = some u := by
  unfold findOne at hf
  unfold findOne replaceById
  induction repo with
  | nil => simp at hf
  | cons a rest ih =>
    rw [List.find?] at hf
    cases hb : (a.id == i) with
    | true =>
      have : a.id = i := by simpa using hb
      simp only [List.map, List.find?, this, if_pos rfl]
      simp [hu]
    | false =>
      rw [hb] at hf
      have : ¬ a.id = i := by simpa using hb
      simp only [List.map, List.find?, if_neg this, hb]
      exact ih hf

/-! Inversion lemmas characterizing the successful runs of the handlers. -/

lemma createShop_ok {st : AppState} {req : ShopRequest} {file : Option String}
    {oracle : GeoResult} {newId : String} {now : DateTimeV}
    {shop : Shop} {st2 : AppState} {tr : List Effect}
    (h : createShop st req file oracle newId now = (Except.ok shop, st2, tr)) :
    shop = newShopDoc req file oracle newId now ∧ validShop shop ∧
      findOne st.repo newId = none ∧
      st2 = { repo := st.repo ++ [shop], fsFiles := st.fsFiles } ∧
      tr = [Effect.geocode req.latitude req.longitude, Effect.dbSave shop] := by
  simp only [createShop] at h
  split at h
  next hc =>
    simp only [Prod.mk.injEq, Except.ok.injEq] at h
    obtain ⟨hdoc, hst, htr⟩ := h
    subst hdoc
    exact ⟨rfl, hc.1, hc.2, hst.symm, htr.symm⟩
  next hc => simp at h

lemma updateShop_ok_noFile {st : AppState} {i : String} {req : ShopRequest}
    {oracle : GeoResult} {now : DateTimeV}
    {u : Shop} {st2 : AppState} {tr : List Effect}
    (h : updateShop st i req none oracle now = (Except.ok u, st2, tr)) :
    ∃ shop, findOne st.repo i = some shop ∧
      u = updatedDoc shop req oracle now ∧ validShop u ∧
      st2 = { repo := replaceById st.repo i u, fsFiles := st.fsFiles } ∧
      tr = [Effect.geocode req.latitude req.longitude, Effect.dbSave u] := by
  simp only [updateShop] at h
  cases hf : findOne st.repo i with
  | none => rw [hf] at h; simp at h
  | some shop =>
    rw [hf] at h
    simp only at h
    split at h
    next hc =>
      simp only [Prod.mk.injEq, Except.ok.injEq] at h
      obtain ⟨hdoc, hst, htr⟩ := h
      subst hdoc
      exact ⟨shop, rfl, rfl, hc, hst.symm, htr.symm⟩
    next hc => simp at h

lemma updateShop_ok_file {st : AppState} {i : String} {req : ShopRequest}
    {f : String} {oracle : GeoResult} {now : DateTimeV}
    {u : Shop} {st2 : AppState} {tr : List Effect}
    (h : updateShop st i req (some f) oracle now = (Except.ok u, st2, tr)) :
    ∃ shop, findOne st.repo i = some shop ∧
      u = { updatedDoc shop req oracle now with photo := "/uploads/" ++ f } ∧
      validShop u ∧
      st2 = { repo := replaceById st.repo i u,
              fsFiles := (removeAsset st.fsFiles shop.photo).1 } ∧
      tr = Effect.geocode req.latitude req.longitude ::
        (removeAsset st.fsFiles shop.photo).2 ++ [Effect.dbSave u] := by
  simp only [updateShop] at h
  cases hf : findOne st.repo i with
  | none => rw [hf] at h; simp at h
  | some shop =>
    rw [hf] at h
    simp only at h
    split at h
    next hc =>
      simp only [Prod.mk.injEq, Except.ok.injEq] at h
      obtain ⟨hdoc, hst, htr⟩ := h
      subst hdoc
      exact ⟨shop, rfl, rfl, hc, hst.symm, htr.symm⟩
    next hc => simp at h

lemma updateShop_ok_shape {st : AppState} {i : String} {req : ShopRequest}
    {file : Option String} {oracle : GeoResult} {now : DateTimeV}
    {u : Shop} {st2 : AppState} {tr : List Effect}
    (h : updateShop st i req file oracle now = (Except.ok u, st2, tr)) :
    ∃ shop, findOne st.repo i = some shop ∧
      u.id = shop.id ∧ u.id = i ∧
      u.ownerName = req.ownerName ∧ u.contactNumber = req.contactNumber ∧
      u.shopNumber = req.shopNumber ∧ u.address = req.address ∧
      u.description = req.description ∧
      u.location = { latitude := req.latitude, longitude := req.longitude,
                     placeName := getPlaceName req.latitude req.longitude oracle } ∧
      u.timestamp = formatTimestamp now ∧
      st2.repo = replaceById st.repo i u ∧
      findOne st2.repo i = some u ∧
      (file = none → u.photo = shop.photo ∧ st2.fsFiles = st.fsFiles ∧
        tr = [Effect.geocode req.latitude req.longitude, Effect.dbSave u]) ∧
      (∀ f, file = some f → u.photo = "/uploads/" ++ f) := by
  cases file with
  | none =>
    obtain ⟨shop, hf, hu, hv, hst, htr⟩ := updateShop_ok_noFile h
    have hid : u.id = shop.id := by rw [hu]; rfl
    have hii : u.id = i := hid.trans (findOne_some_id hf)
    have hrepo : st2.repo = replaceById st.repo i u := by rw [hst]
    refine ⟨shop, hf, hid, hii, ?_, ?_, ?_, ?_, ?_, ?_, ?_, hrepo, ?_, ?_, ?_⟩
    · rw [hu]; rfl
    · rw [hu]; rfl
    · rw [hu]; rfl
    · rw [hu]; rfl
    · rw [hu]; rfl
    · rw [hu]; rfl
    · rw [hu]; rfl
    · rw [hrepo]; exact findOne_replaceById hf hii
    · intro _
      refine ⟨by rw [hu]; rfl, by rw [hst], htr⟩
    · intro f hfe; exact absurd hfe (by simp)
  | some f =>
    obtain ⟨shop, hf, hu, hv, hst, htr⟩ := updateShop_ok_file h
    have hid : u.id = shop.id := by rw [hu]; rfl
    have hii : u.id = i := hid.trans (findOne_some_id hf)
    have hrepo : st2.repo = replaceById st.repo i u := by rw [hst]
    refine ⟨shop, hf, hid, hii, ?_, ?_, ?_, ?_, ?_, ?_, ?_, hrepo, ?_, ?_, ?_⟩
    · rw [hu]; rfl
    · rw [hu]; rfl
    · rw [hu]; rfl
    · rw [hu]; rfl
    · rw [hu]; rfl
    · rw [hu]; rfl
    · rw [hu]; rfl
    · rw [hrepo]; exact findOne_replaceById hf hii
    · intro hfe; exact absurd hfe (by simp)
    · intro g hfe
      have : f = g := by injection hfe
      rw [hu, ← this]

/-! Concrete fixtures used by the witnesses and counterexamples. -/

/-- Shop record already present in the store, carrying a photo. -/
def exShop : Shop :=
  { id := "shop-1", ownerName := "Mohit", contactNumber := "123",
    shopNumber := "A1", address := "1 High St", description := "Groceries",
    photo := "/uploads/old.jpg", timestamp := "2026-01-01 00:00:00",
    location := { latitude := "51.5074", longitude := "-0.1278",
                  placeName := "London, UK" } }

/-- Server state holding `exShop` and two files: the referenced old photo and
a freshly staged upload. -/
def exSt : AppState :=
  { repo := [exShop], fsFiles := ["/uploads/old.jpg", "/uploads/new.jpg"] }

/-- Well-formed request body. -/
def exReq : ShopRequest :=
  { ownerName := "Mohit", contactNumber := "123", shopNumber := "A1",
    address := "1 High St", description := "Groceries",
    latitude := "51.5074", longitude := "-0.1278" }

/-- Request instant. -/
def exNow : DateTimeV :=
  { year := 2026, month := 10, day := 11, hour := 12, minute := 30, second := 5 }

/-- Oracle answer for the London scenario. -/
def exGeo : GeoResult := GeoResult.response (some "London, UK")

/-- Document produced by a successful photo-replacing update of `exShop`. -/
def exUpdated : Shop :=
  { id := "shop-1", ownerName := "Mohit", contactNumber := "123",
    shopNumber := "A1", address := "1 High St", description := "Groceries",
    photo := "/uploads/new.jpg", timestamp := "2026-10-11 12:30:05",
    location := { latitude := "51.5074", longitude := "-0.1278",
                  placeName := "London, UK" } }

/-- Request body with a missing required field (`ownerName`). -/
def badReq : ShopRequest :=
  { ownerName := "", contactNumber := "123", shopNumber := "A1",
    address := "1 High St", description := "Groceries",
    latitude := "51.5074", longitude := "-0.1278" }

/-! Claims. -/

/-- C8: for every reference, asset removal deletes the file when it exists
(for a real, non-empty reference) and is a silent no-op rather than an error
when the file does not exist; repeating a removal yields the same file set as
performing it once, with no second deletion performed. -/
theorem C8_asset_removal_idempotent (fsFiles : List String) (ref : String) :
    (ref ≠ "" → ref ∈ fsFiles →
      (removeAsset fsFiles ref).1 = fsFiles.filter (fun f => f != ref) ∧
        ref ∉ (removeAsset fsFiles ref).1 ∧
        (removeAsset fsFiles ref).2 = [Effect.fsUnlink ref]) ∧
    (ref ∉ fsFiles → removeAsset fsFiles ref = (fsFiles, [])) ∧
    removeAsset (removeAsset fsFiles ref).1 ref = ((removeAsset fsFiles ref).1, []) := by
  refine ⟨?_, ?_, ?_⟩
  · intro hne hmem
    unfold removeAsset
    rw [if_pos ⟨hne, hmem⟩]
    refine ⟨rfl, ?_, rfl⟩
    simp [List.mem_filter]
  · intro hmem
    unfold removeAsset
    rw [if_neg (fun hc => hmem hc.2)]
  · by_cases hc : ref ≠ "" ∧ ref ∈ fsFiles
    · unfold removeAsset
      rw [if_pos hc]
      have : ¬ (ref ≠ "" ∧ ref ∈ fsFiles.filter (fun f => f != ref)) := by
        intro hx
        have := hx.2
        simp [List.mem_filter] at this
      rw [if_neg this]
    · unfold removeAsset
      rw [if_neg hc, if_neg hc]

/-- Witness for C8 at concrete inputs: removing an existing reference deletes
exactly that file, removing an absent reference is a no-op, and a repeated
removal does nothing further. -/
theorem C8_asset_removal_idempotent_witness :
    ((removeAsset ["/uploads/old.jpg"] "/uploads/old.jpg").1 =
        List.filter (fun f => f != "/uploads/old.jpg") ["/uploads/old.jpg"] ∧
      "/uploads/old.jpg" ∉ (removeAsset ["/uploads/old.jpg"] "/uploads/old.jpg").1 ∧
      (removeAsset ["/uploads/old.jpg"] "/uploads/old.jpg").2 =
        [Effect.fsUnlink "/uploads/old.jpg"]) ∧
    removeAsset ["/uploads/old.jpg"] "/uploads/absent.jpg" = (["/uploads/old.jpg"], []) ∧
    removeAsset (removeAsset ["/uploads/old.jpg"] "/uploads/old.jpg").1 "/uploads/old.jpg" =
      ((removeAsset ["/uploads/old.jpg"] "/uploads/old.jpg").1, []) :=
  ⟨(C8_asset_removal_idempotent ["/uploads/old.jpg"] "/uploads/old.jpg").1
      (by decide) (by decide),
    (C8_asset_removal_idempotent ["/uploads/old.jpg"] "/uploads/absent.jpg").2.1
      (by decide),
    (C8_asset_removal_idempotent ["/uploads/old.jpg"] "/uploads/old.jpg").2.2⟩

/-- C3: get, update and delete on an external id with no record each answer
with the distinct 404 not-found outcome (different from the generic 500),
leave the repository and the file store untouched, and perform no effect at
all. -/
theorem C3_not_found_symmetry (st : AppState) (i : String)
    (h : findOne st.repo i = none) :
    getShop st i = (Except.error ApiError.notFound, st, []) ∧
    (∀ req file oracle now,
      updateShop st i req file oracle now = (Except.error ApiError.notFound, st, [])) ∧
    deleteShop st i = (Except.error ApiError.notFound, st, []) ∧
    ApiError.notFound ≠ ApiError.serverError := by
  refine ⟨?_, ?_, ?_, by simp⟩
  · unfold getShop; rw [h]
  · intro req file oracle now
    unfold updateShop; rw [h]
  · unfold deleteShop; rw [h]

/-- Witness for C3 at a concrete state: the id `ghost` matches no record, and
all three operations answer 404 without any mutation. -/
theorem C3_not_found_symmetry_witness :
    getShop exSt "ghost" = (Except.error ApiError.notFound, exSt, []) ∧
    (∀ req file oracle now,
      updateShop exSt "ghost" req file oracle now =
        (Except.error ApiError.notFound, exSt, [])) ∧
    deleteShop exSt "ghost" = (Except.error ApiError.notFound, exSt, []) ∧
    ApiError.notFound ≠ ApiError.serverError :=
  C3_not_found_symmetry exSt "ghost" (by decide)

lemma findOne_singleton_self (s : Shop) : findOne [s] s.id = some s := by
  unfold findOne
  simp [List.find?]

instance decEqExcept {ε α : Type} [DecidableEq ε] [DecidableEq α] :
    DecidableEq (Except ε α) := fun x y =>
  match x, y with
  | Except.ok a, Except.ok b =>
    if h : a = b then isTrue (by rw [h])
    else isFalse (by intro he; injection he; contradiction)
  | Except.ok _, Except.error _ => isFalse (by intro he; exact Except.noConfusion he)
  | Except.error _, Except.ok _ => isFalse (by intro he; exact Except.noConfusion he)
  | Except.error e, Except.error f =>
    if h : e = f then isTrue (by rw [h])
    else isFalse (by intro he; injection he; contradiction)

/-- Document created from `exReq` with a fresh id and no staged file, under
the London oracle answer. -/
def exCreated : Shop :=
  { id := "shop-2", ownerName := "Mohit", contactNumber := "123",
    shopNumber := "A1", address := "1 High St", description := "Groceries",
    photo := "", timestamp := "2026-10-11 12:30:05",
    location := { latitude := "51.5074", longitude := "-0.1278",
                  placeName := "London, UK" } }

/-- Document created from `exReq` under a thrown oracle failure. -/
def exCreatedFb : Shop :=
  { exCreated with
    location := { latitude := "51.5074", longitude := "-0.1278",
                  placeName := "Unknown location" } }

/-- Document resulting from updating `exShop` (no staged file) under a thrown
oracle failure. -/
def exUpdatedFb : Shop :=
  { exShop with
    timestamp := "2026-10-11 12:30:05",
    location := { latitude := "51.5074", longitude := "-0.1278",
                  placeName := "Unknown location" } }

/-- State after creating `exCreated` on top of `exSt`. -/
def stAfterCreate : AppState :=
  { repo := [exShop, exCreated], fsFiles := ["/uploads/old.jpg", "/uploads/new.jpg"] }

/-- C2: place-name resolution never propagates an oracle failure: a thrown
request and a malformed response (no `display_name`) both return the sentinel
string, and a create or an update performed while the oracle throws still
succeeds, storing the sentinel as the record's place name. -/
theorem C2_enrichment_fallback (st st2 st3 st4 : AppState) (i : String)
    (req req2 : ShopRequest) (file file2 : Option String) (newId : String)
    (now now2 : DateTimeV) (shop u : Shop) (tr tr2 : List Effect)
    (hc : createShop st req file GeoResult.failure newId now = (Except.ok shop, st2, tr))
    (hu : updateShop st3 i req2 file2 GeoResult.failure now2 = (Except.ok u, st4, tr2)) :
    (∀ lat lon, getPlaceName lat lon GeoResult.failure = "Unknown location") ∧
    (∀ lat lon, getPlaceName lat lon (GeoResult.response none) = "Unknown location") ∧
    shop.location.placeName = "Unknown location" ∧
    u.location.placeName = "Unknown location" := by
  obtain ⟨hdoc, -, -, -, -⟩ := createShop_ok hc
  obtain ⟨old, -, -, -, -, -, -, -, -, hloc, -, -, -, -, -⟩ := updateShop_ok_shape hu
  refine ⟨fun _ _ => rfl, fun _ _ => rfl, ?_, ?_⟩
  · rw [hdoc]; rfl
  · rw [hloc]; rfl

/-- Witness for C2: under a thrown oracle failure, the concrete create and
update both succeed and store the sentinel place name. -/
theorem C2_enrichment_fallback_witness :
    getPlaceName "51.5074" "-0.1278" GeoResult.failure = "Unknown location" ∧
    getPlaceName "51.5074" "-0.1278" (GeoResult.response none) = "Unknown location" ∧
    exCreatedFb.location.placeName = "Unknown location" ∧
    exUpdatedFb.location.placeName = "Unknown location" := by
  have h := C2_enrichment_fallback exSt
    { repo := [exShop, exCreatedFb], fsFiles := ["/uploads/old.jpg", "/uploads/new.jpg"] }
    exSt
    { repo := [exUpdatedFb], fsFiles := ["/uploads/old.jpg", "/uploads/new.jpg"] }
    "shop-1" exReq exReq none none "shop-2" exNow exNow exCreatedFb exUpdatedFb
    [Effect.geocode "51.5074" "-0.1278", Effect.dbSave exCreatedFb]
    [Effect.geocode "51.5074" "-0.1278", Effect.dbSave exUpdatedFb]
    (by decide) (by decide)
  exact ⟨h.1 "51.5074" "-0.1278", h.2.1 "51.5074" "-0.1278", h.2.2.1, h.2.2.2⟩

/-- C4: a successful create returns the record under the server-generated id,
which is non-empty and distinct from the id of every record already in the
store; any subsequent successful update of that record leaves the id field
unchanged, both in the returned and in the stored document. -/
theorem C4_identity_stability (st : AppState) (req : ShopRequest)
    (file : Option String) (oracle : GeoResult) (newId : String)
    (now : DateTimeV) (shop : Shop) (st2 : AppState) (tr : List Effect)
    (hc : createShop st req file oracle newId now = (Except.ok shop, st2, tr)) :
    shop.id = newId ∧ shop.id ≠ "" ∧ (∀ old ∈ st.repo, shop.id ≠ old.id) ∧
    (∀ req2 file2 oracle2 now2 u st3 tr2,
      updateShop st2 shop.id req2 file2 oracle2 now2 = (Except.ok u, st3, tr2) →
      u.id = shop.id ∧ findOne st3.repo shop.id = some u) := by
  obtain ⟨hdoc, hval, hnone, -, -⟩ := createShop_ok hc
  have hid : shop.id = newId := by rw [hdoc]; rfl
  refine ⟨hid, hval.1, ?_, ?_⟩
  · intro old hold
    have hne := findOne_none_forall hnone old hold
    rw [hid]
    exact fun he => hne he.symm
  · intro req2 file2 oracle2 now2 u st3 tr2 hu
    obtain ⟨old, -, -, hii, -, -, -, -, -, -, -, -, hfind2, -, -⟩ :=
      updateShop_ok_shape hu
    exact ⟨hii, hfind2⟩

/-- Witness for C4: creating `exCreated` on `exSt` yields the fresh non-empty
id `shop-2`, distinct from the existing record's id, and a subsequent update
keeps the stored document under the same id. -/
theorem C4_identity_stability_witness :
    exCreated.id = "shop-2" ∧ exCreated.id ≠ "" ∧ exCreated.id ≠ exShop.id ∧
    findOne stAfterCreate.repo exCreated.id = some exCreated := by
  have h := C4_identity_stability exSt exReq none exGeo "shop-2" exNow exCreated
    stAfterCreate [Effect.geocode "51.5074" "-0.1278", Effect.dbSave exCreated]
    (by decide)
  refine ⟨h.1, h.2.1, h.2.2.1 exShop (by decide), ?_⟩
  have h4 := h.2.2.2 exReq none exGeo exNow exCreated stAfterCreate
    [Effect.geocode "51.5074" "-0.1278", Effect.dbSave exCreated] (by decide)
  exact h4.2

/-- C6: the stored place name always equals the resolution of the coordinates
supplied in the current request, for create and for update alike (so it is
never carried over from the record's prior value), and in the London scenario
the oracle answer `London, UK` is stored verbatim. -/
theorem C6_placename_recomputed (st st2 st3 st4 : AppState) (i : String)
    (req req2 : ShopRequest) (file file2 : Option String)
    (oracle oracle2 : GeoResult) (newId : String) (now now2 : DateTimeV)
    (shop u : Shop) (tr tr2 : List Effect)
    (hc : createShop st req file oracle newId now = (Except.ok shop, st2, tr))
    (hu : updateShop st3 i req2 file2 oracle2 now2 = (Except.ok u, st4, tr2)) :
    shop.location.placeName = getPlaceName req.latitude req.longitude oracle ∧
    u.location.placeName = getPlaceName req2.latitude req2.longitude oracle2 ∧
    getPlaceName "51.5074" "-0.1278" (GeoResult.response (some "London, UK")) =
      "London, UK" := by
  obtain ⟨hdoc, -, -, -, -⟩ := createShop_ok hc
  obtain ⟨old, -, -, -, -, -, -, -, -, hloc, -, -, -, -, -⟩ := updateShop_ok_shape hu
  refine ⟨?_, ?_, rfl⟩
  · rw [hdoc]; rfl
  · rw [hloc]

/-- Witness for C6: the concrete create stores `London, UK` as resolved from
the request coordinates, and the concrete photo-replacing update does too. -/
theorem C6_placename_recomputed_witness :
    exCreated.location.placeName = getPlaceName "51.5074" "-0.1278" exGeo ∧
    exUpdated.location.placeName = getPlaceName "51.5074" "-0.1278" exGeo ∧
    getPlaceName "51.5074" "-0.1278" (GeoResult.response (some "London, UK")) =
      "London, UK" :=
  C6_placename_recomputed exSt stAfterCreate exSt
    { repo := [exUpdated], fsFiles := ["/uploads/new.jpg"] }
    "shop-1" exReq exReq none (some "new.jpg") exGeo exGeo "shop-2" exNow exNow
    exCreated exUpdated
    [Effect.geocode "51.5074" "-0.1278", Effect.dbSave exCreated]
    [Effect.geocode "51.5074" "-0.1278", Effect.fsUnlink "/uploads/old.jpg",
      Effect.dbSave exUpdated]
    (by decide) (by decide)

/-- C7: after a successful create, a get with the returned id answers 200 with
a record equal to the created one, whose fields are exactly the request
fields together with the server-assigned id, timestamp, resolved place name
and photo reference. -/
theorem C7_create_get_roundtrip (st : AppState) (req : ShopRequest)
    (file : Option String) (oracle : GeoResult) (newId : String)
    (now : DateTimeV) (shop : Shop) (st2 : AppState) (tr : List Effect)
    (hc : createShop st req file oracle newId now = (Except.ok shop, st2, tr)) :
    getShop st2 shop.id = (Except.ok shop, st2, []) ∧
    shop.id = newId ∧
    shop.ownerName = req.ownerName ∧ shop.contactNumber = req.contactNumber ∧
    shop.shopNumber = req.shopNumber ∧ shop.address = req.address ∧
    shop.description = req.description ∧
    shop.timestamp = formatTimestamp now ∧
    shop.location.latitude = req.latitude ∧
    shop.location.longitude = req.longitude ∧
    shop.location.placeName = getPlaceName req.latitude req.longitude oracle ∧
    shop.photo = photoRefOf file := by
  obtain ⟨hdoc, hval, hnone, hst, -⟩ := createShop_ok hc
  subst hdoc
  have hnone2 : findOne st.repo (newShopDoc req file oracle newId now).id = none :=
    hnone
  have hfind : findOne st2.repo (newShopDoc req file oracle newId now).id =
      some (newShopDoc req file oracle newId now) := by
    rw [hst]
    show findOne (st.repo ++ [newShopDoc req file oracle newId now]) _ = _
    rw [findOne_append_of_none hnone2]
    exact findOne_singleton_self _
  refine ⟨?_, rfl, rfl, rfl, rfl, rfl, rfl, rfl, rfl, rfl, rfl, rfl⟩
  unfold getShop
  rw [hfind]

/-- Witness for C7: creating `exCreated` and then getting `shop-2` returns the
very record just created, with all server-assigned fields present. -/
theorem C7_create_get_roundtrip_witness :
    getShop stAfterCreate exCreated.id = (Except.ok exCreated, stAfterCreate, []) ∧
    exCreated.id = "shop-2" ∧
    exCreated.ownerName = exReq.ownerName ∧
    exCreated.contactNumber = exReq.contactNumber ∧
    exCreated.shopNumber = exReq.shopNumber ∧ exCreated.address = exReq.address ∧
    exCreated.description = exReq.description ∧
    exCreated.timestamp = formatTimestamp exNow ∧
    exCreated.location.latitude = exReq.latitude ∧
    exCreated.location.longitude = exReq.longitude ∧
    exCreated.location.placeName = getPlaceName exReq.latitude exReq.longitude exGeo ∧
    exCreated.photo = photoRefOf none :=
  C7_create_get_roundtrip exSt exReq none exGeo "shop-2" exNow exCreated
    stAfterCreate [Effect.geocode "51.5074" "-0.1278", Effect.dbSave exCreated]
    (by decide)

instance decValidTime (t : DateTimeV) : Decidable (validTime t) := by
  unfold validTime; infer_instance

/-- Document resulting from updating `exShop` with `exReq` and no staged
file: only the timestamp changes (the other request values coincide with the
stored ones). -/
def exUpdatedNoFile : Shop :=
  { exShop with timestamp := "2026-10-11 12:30:05" }

/-- C9: every successful create and every successful update stamps the
returned record's timestamp with the freshly formatted current time of that
request, and for any in-range clock instant the formatted value has the fixed
textual shape `YYYY-MM-DD HH:MM:SS`. -/
theorem C9_timestamp_refreshed (st st3 : AppState) (i : String)
    (req req2 : ShopRequest) (file file2 : Option String)
    (oracle oracle2 : GeoResult) (newId : String) (now now2 : DateTimeV)
    (shop u : Shop) (st2 st4 : AppState) (tr tr2 : List Effect)
    (hc : createShop st req file oracle newId now = (Except.ok shop, st2, tr))
    (hu : updateShop st3 i req2 file2 oracle2 now2 = (Except.ok u, st4, tr2))
    (hn : validTime now) (hn2 : validTime now2) :
    shop.timestamp = formatTimestamp now ∧ timestampShape shop.timestamp ∧
    u.timestamp = formatTimestamp now2 ∧ timestampShape u.timestamp := by
  obtain ⟨hdoc, -, -, -, -⟩ := createShop_ok hc
  obtain ⟨old, -, -, -, -, -, -, -, -, -, htime, -, -, -, -⟩ := updateShop_ok_shape hu
  have h1 : shop.timestamp = formatTimestamp now := by rw [hdoc]; rfl
  refine ⟨h1, ?_, htime, ?_⟩
  · rw [h1]; exact formatTimestamp_shape now hn
  · rw [htime]; exact formatTimestamp_shape now2 hn2

/-- Witness for C9: the concrete create and the concrete photo-replacing
update both stamp `2026-10-11 12:30:05`, which has the prescribed shape. -/
theorem C9_timestamp_refreshed_witness :
    exCreated.timestamp = formatTimestamp exNow ∧
    timestampShape exCreated.timestamp ∧
    exUpdated.timestamp = formatTimestamp exNow ∧
    timestampShape exUpdated.timestamp :=
  C9_timestamp_refreshed exSt exSt "shop-1" exReq exReq none (some "new.jpg")
    exGeo exGeo "shop-2" exNow exNow exCreated exUpdated stAfterCreate
    { repo := [exUpdated], fsFiles := ["/uploads/new.jpg"] }
    [Effect.geocode "51.5074" "-0.1278", Effect.dbSave exCreated]
    [Effect.geocode "51.5074" "-0.1278", Effect.fsUnlink "/uploads/old.jpg",
      Effect.dbSave exUpdated]
    (by decide) (by decide) (by decide) (by decide)

/-- C10: an update carrying no staged file leaves the stored photo reference
untouched and performs no filesystem operation at all (the file set is
unchanged and the trace holds no unlink), while every other mutable field is
replaced with the request's values and the timestamp is refreshed. -/
theorem C10_no_file_keeps_photo (st : AppState) (i : String) (req : ShopRequest)
    (oracle : GeoResult) (now : DateTimeV) (u : Shop) (st2 : AppState)
    (tr : List Effect)
    (h : updateShop st i req none oracle now = (Except.ok u, st2, tr)) :
    ∃ shop, findOne st.repo i = some shop ∧
      u.photo = shop.photo ∧ st2.fsFiles = st.fsFiles ∧
      (∀ r, Effect.fsUnlink r ∉ tr) ∧
      u.id = shop.id ∧
      u.ownerName = req.ownerName ∧ u.contactNumber = req.contactNumber ∧
      u.shopNumber = req.shopNumber ∧ u.address = req.address ∧
      u.description = req.description ∧
      u.location = { latitude := req.latitude, longitude := req.longitude,
                     placeName := getPlaceName req.latitude req.longitude oracle } ∧
      u.timestamp = formatTimestamp now ∧
      st2.repo = replaceById st.repo i u := by
  obtain ⟨shop, hf, hid, hii, ho, hcn, hsn, ha, hd, hloc, htime, hrepo, -, hnone, -⟩ :=
    updateShop_ok_shape h
  obtain ⟨hphoto, hfs, htr⟩ := hnone rfl
  refine ⟨shop, hf, hphoto, hfs, ?_, hid, ho, hcn, hsn, ha, hd, hloc, htime, hrepo⟩
  intro r
  rw [htr]
  simp

/-- Witness for C10: the concrete update of `shop-1` without a staged file
keeps `/uploads/old.jpg`, changes no file, and replaces the mutable fields. -/
theorem C10_no_file_keeps_photo_witness :
    ∃ shop, findOne exSt.repo "shop-1" = some shop ∧
      exUpdatedNoFile.photo = shop.photo ∧
      ({ repo := [exUpdatedNoFile],
         fsFiles := ["/uploads/old.jpg", "/uploads/new.jpg"] } : AppState).fsFiles =
        exSt.fsFiles ∧
      (∀ r, Effect.fsUnlink r ∉
        [Effect.geocode "51.5074" "-0.1278", Effect.dbSave exUpdatedNoFile]) ∧
      exUpdatedNoFile.id = shop.id ∧
      exUpdatedNoFile.ownerName = exReq.ownerName ∧
      exUpdatedNoFile.contactNumber = exReq.contactNumber ∧
      exUpdatedNoFile.shopNumber = exReq.shopNumber ∧
      exUpdatedNoFile.address = exReq.address ∧
      exUpdatedNoFile.description = exReq.description ∧
      exUpdatedNoFile.location =
        { latitude := exReq.latitude, longitude := exReq.longitude,
          placeName := getPlaceName exReq.latitude exReq.longitude exGeo } ∧
      exUpdatedNoFile.timestamp = formatTimestamp exNow ∧
      ({ repo := [exUpdatedNoFile],
         fsFiles := ["/uploads/old.jpg", "/uploads/new.jpg"] } : AppState).repo =
        replaceById exSt.repo "shop-1" exUpdatedNoFile :=
  C10_no_file_keeps_photo exSt "shop-1" exReq exGeo exNow exUpdatedNoFile
    { repo := [exUpdatedNoFile], fsFiles := ["/uploads/old.jpg", "/uploads/new.jpg"] }
    [Effect.geocode "51.5074" "-0.1278", Effect.dbSave exUpdatedNoFile]
    (by decide)

/-- C1 counterexample: in the concrete photo-replacing update on `shop-1`,
the trace produced by the handler performs the unlink of the old file before
the document write, so it is false that the old asset is removed only after
the record carrying the new reference has been persisted. -/
theorem C1_counterexample :
    (updateShop exSt "shop-1" exReq (some "new.jpg") exGeo exNow).1 =
      Except.ok exUpdated ∧
    unlinksAfterSave
      (updateShop exSt "shop-1" exReq (some "new.jpg") exGeo exNow).2.2 false =
      false := by decide

/-- C1 amended: for every photo-replacing update on an existing shop whose
old photo file exists, the handler removes the old file strictly before the
document carrying the new reference is persisted (order: geocode, unlink old
file, save record), so between those two steps the stored record still
references the deleted file; afterwards the returned record carries the new
reference and the old file is gone. -/
theorem C1_old_file_removed_before_persist (st : AppState) (i : String)
    (req : ShopRequest) (f : String) (oracle : GeoResult) (now : DateTimeV)
    (u : Shop) (st2 : AppState) (tr : List Effect) (shop : Shop)
    (h : updateShop st i req (some f) oracle now = (Except.ok u, st2, tr))
    (hfind : findOne st.repo i = some shop)
    (hphoto : shop.photo ≠ "") (hex : shop.photo ∈ st.fsFiles) :
    tr = [Effect.geocode req.latitude req.longitude, Effect.fsUnlink shop.photo,
      Effect.dbSave u] ∧
    unlinksAfterSave tr false = false ∧
    u.photo = "/uploads/" ++ f ∧
    st2.fsFiles = st.fsFiles.filter (fun x => x != shop.photo) ∧
    st2.repo = replaceById st.repo i u := by
  obtain ⟨shop2, hf2, hu, hv, hst, htr⟩ := updateShop_ok_file h
  rw [hfind] at hf2
  injection hf2 with he
  subst he
  have hra : removeAsset st.fsFiles shop.photo =
      (st.fsFiles.filter (fun x => x != shop.photo), [Effect.fsUnlink shop.photo]) := by
    unfold removeAsset
    rw [if_pos ⟨hphoto, hex⟩]
  refine ⟨?_, ?_, ?_, ?_, ?_⟩
  · rw [htr, hra]; rfl
  · rw [htr, hra]; rfl
  · rw [hu]
  · rw [hst, hra]
  · rw [hst]

/-- Witness for the amended C1: the concrete photo-replacing update on
`shop-1` produces exactly the geocode-unlink-save trace, stores the new
reference, and leaves the file set without the old file. -/
theorem C1_old_file_removed_before_persist_witness :
    ([Effect.geocode "51.5074" "-0.1278", Effect.fsUnlink "/uploads/old.jpg",
      Effect.dbSave exUpdated] : List Effect) =
      [Effect.geocode exReq.latitude exReq.longitude, Effect.fsUnlink exShop.photo,
        Effect.dbSave exUpdated] ∧
    unlinksAfterSave [Effect.geocode "51.5074" "-0.1278",
      Effect.fsUnlink "/uploads/old.jpg", Effect.dbSave exUpdated] false = false ∧
    exUpdated.photo = "/uploads/" ++ "new.jpg" ∧
    (["/uploads/new.jpg"] : List String) =
      List.filter (fun x => x != exShop.photo) exSt.fsFiles ∧
    ([exUpdated] : List Shop) = replaceById exSt.repo "shop-1" exUpdated :=
  C1_old_file_removed_before_persist exSt "shop-1" exReq "new.jpg" exGeo exNow
    exUpdated { repo := [exUpdated], fsFiles := ["/uploads/new.jpg"] }
    [Effect.geocode "51.5074" "-0.1278", Effect.fsUnlink "/uploads/old.jpg",
      Effect.dbSave exUpdated]
    exShop (by decide) (by decide) (by decide) (by decide)

/-- C5 counterexample: a create whose body lacks the required `ownerName`
still performs the geocoding call and then fails with the generic 500
server-error outcome, not with a distinct 4xx client-error outcome before the
operation; so the claim that the operation is not attempted is false. -/
theorem C5_counterexample :
    (createShop exSt badReq none exGeo "shop-9" exNow).1 =
      Except.error ApiError.serverError ∧
    Effect.geocode "51.5074" "-0.1278" ∈
      (createShop exSt badReq none exGeo "shop-9" exNow).2.2 := by decide

/-- C5 amended: a create request with a missing or empty required text field
is still attempted: the geocoding call happens (and any staged upload has
already been written by multer), and the operation then fails Mongoose
validation at `shop.save()`, answering the generic 500 outcome with no record
persisted and the state otherwise unchanged. -/
theorem C5_missing_field_fails_at_save (st : AppState) (req : ShopRequest)
    (file : Option String) (oracle : GeoResult) (newId : String)
    (now : DateTimeV) (h : missingRequired req) :
    createShop st req file oracle newId now =
      (Except.error ApiError.serverError, st,
        [Effect.geocode req.latitude req.longitude]) ∧
    Effect.geocode req.latitude req.longitude ∈
      (createShop st req file oracle newId now).2.2 := by
  have hinv : ¬ validShop (newShopDoc req file oracle newId now) := by
    intro hv
    rcases h with h | h | h | h | h
    · exact hv.2.1 h
    · exact hv.2.2.1 h
    · exact hv.2.2.2.1 h
    · exact hv.2.2.2.2.1 h
    · exact hv.2.2.2.2.2.1 h
  have hcond : ¬ (validShop (newShopDoc req file oracle newId now) ∧
      findOne st.repo newId = none) := fun hc => hinv hc.1
  constructor
  · simp only [createShop]
    rw [if_neg hcond]
  · simp only [createShop]
    rw [if_neg hcond]
    simp

/-- Witness for the amended C5: the concrete create with an empty
`ownerName` fails with 500 after having performed the geocoding call. -/
theorem C5_missing_field_fails_at_save_witness :
    createShop exSt badReq none exGeo "shop-9" exNow =
      (Except.error ApiError.serverError, exSt,
        [Effect.geocode "51.5074" "-0.1278"]) ∧
    Effect.geocode "51.5074" "-0.1278" ∈
      (createShop exSt badReq none exGeo "shop-9" exNow).2.2 :=
  C5_missing_field_fails_at_save exSt badReq none exGeo "shop-9" exNow (by decide)

end FlutterFlowApi

